import Mathlib

/-!
Shallow embedding of the nanobanana_remix generation controller.

The repository contains two variants of the same single-page app:
* `src/unnamed/part_000` — the variant with an in-page API-key field
  (`validateApiKey`, `isApiKeyValid`), modelled in namespace `Part000`;
* `src/index.tsx` — the AI-Studio variant that loads `system_prompt.txt`
  and prefixes it to every generation prompt, modelled in namespace
  `IndexTsx`.

DOM reads and writes, network transport and the remote model are external
to the controller; they are modelled by explicit inputs (the parsed
response, the current `Date.now()` value, the random draws of
`Math.random`) and explicit outputs (the request that would be issued, the
status message that would be shown).  Timestamps are `Int` milliseconds,
matching the arithmetic JS performs on `Date.now()` values.
-/

namespace NanoRemix

/-- Whitespace test for the JS regular-expression class `\s` and
`String.prototype.trim`, restricted to the ASCII whitespace characters. -/
def jsIsSpace (c : Char) : Bool :=
  c = ' ' || c = '\t' || c = '\n' || c = '\r' || c = '\x0b' || c = '\x0c'

/-- JS `String.prototype.trim`: strip whitespace from both ends. -/
def jsTrim (s : String) : String :=
  String.mk (((s.data.dropWhile jsIsSpace).reverse.dropWhile jsIsSpace).reverse)

/-- Containment of `needle` as a contiguous run inside `hay`. -/
def listHasRun (needle : List Char) : List Char → Bool
  | [] => needle.isEmpty
  | c :: rest => List.isPrefixOf needle (c :: rest) || listHasRun needle rest

/-- JS `String.prototype.includes`: substring containment. -/
def jsIncludes (s sub : String) : Bool :=
  listHasRun sub.data s.data

/-- JS `String.prototype.toLowerCase` (ASCII case folding). -/
def jsToLower (s : String) : String :=
  String.mk (s.data.map Char.toLower)

/-- JS `Math.ceil (a / b)` for an integer `a` and positive integer `b`. -/
def ceilDivInt (a b : Int) : Int :=
  -((-a).ediv b)

/-- `const API_CALL_COOLDOWN_MS = 10000` (both variants). -/
def API_CALL_COOLDOWN_MS : Int := 10000

/-- The `allOptions : Record<string, string[]>` object: each of the four
keys is absent (`none`) until `loadCreativeOptions` succeeds. -/
structure OptionCatalog where
  poses : Option (List String)
  scenes : Option (List String)
  moods : Option (List String)
  artstyle : Option (List String)
deriving DecidableEq

/-- The initial, empty `allOptions = {}`. -/
def OptionCatalog.empty : OptionCatalog :=
  ⟨none, none, none, none⟩

/-- The JSON object returned by `generateOptions` after `JSON.parse`
against the response schema (three arrays of strings; the schema carries
no length constraint). -/
structure OptionsResponse where
  poses : List String
  scenes : List String
  moods : List String
deriving DecidableEq

/-- The fixed art-style list assigned by `loadCreativeOptions`. -/
def ART_STYLES : List String :=
  ["Photorealistic", "Cartoon", "Illustration"]

/-- The multimodal request `generateImage` would send: both reference
images plus the prompt text. -/
structure GenRequest where
  sourceImage : String
  clothingImage : String
  prompt : String
deriving DecidableEq

/-- One part of the generation response (`response.candidates[0].content.parts`). -/
structure ResponsePart where
  inlineData : Option String
  text : Option String
deriving DecidableEq

/-- Head of the data URL built from the returned image payload. -/
def dataUrlHead : String := "data:image/png;base64,"

/-- Error thrown by `generateImage` when no response part carries an image. -/
def noImageMsg : String :=
  "No image was generated. The prompt may have been blocked."

/-- Error thrown by `generateImage` when a reference image is missing. -/
def imagesNotLoadedMsg : String :=
  "Source images have not been loaded."

/-- The scan over the response parts inside `generateImage`: return the
first inline image payload as a data URL, or throw. -/
def extractImageUrl : List ResponsePart → Except String String
  | [] => Except.error noImageMsg
  | p :: rest =>
    match p.inlineData with
    | some d => Except.ok (dataUrlHead ++ d)
    | none => extractImageUrl rest

/-- The first inline image payload among the response parts (specification
side of the scan, for comparison with `extractImageUrl`). -/
def firstInlineData : List ResponsePart → Option String
  | [] => none
  | p :: rest =>
    match p.inlineData with
    | some d => some d
    | none => firstInlineData rest

/-- JS truthiness test `!x` for a nullable string: `null` and the empty
string are both falsy. -/
def jsFalsyStr : Option String → Bool
  | none => true
  | some s => s = ""

namespace Part000

/-- The mutable controller state of `src/unnamed/part_000` (its module-level
`let` variables, DOM-held inputs included as the fields they are read
from: `apiKeyInput.value` and `promptInputEl.value`). -/
structure AppState where
  selectedPose : Option String
  selectedScene : Option String
  selectedMood : Option String
  selectedArtStyle : Option String
  sourceImageBase64 : Option String
  clothingImageBase64 : Option String
  apiKeyInput : String
  isApiKeyValid : Bool
  allOptions : OptionCatalog
  lastGenerationTime : Int
  promptInput : String
deriving DecidableEq

/-- The credential gate of `performGeneration` and `loadCreativeOptions`:
the trimmed key is non-empty and the validity flag is set. -/
def credOk (st : AppState) : Bool :=
  !(jsTrim st.apiKeyInput == "") && st.isApiKeyValid

/-- All four category selections are truthy (non-null, non-empty). -/
def selectionsComplete (st : AppState) : Bool :=
  !(jsFalsyStr st.selectedPose || jsFalsyStr st.selectedScene ||
    jsFalsyStr st.selectedMood || jsFalsyStr st.selectedArtStyle)

/-- Both reference images have been loaded. -/
def imagesLoaded (st : AppState) : Bool :=
  st.sourceImageBase64.isSome && st.clothingImageBase64.isSome

/-- Message shown when the credential gate fails. -/
def keyErrorMsg : String :=
  "Please enter and validate a valid API key first."

/-- Message shown when the cooldown gate fails. -/
def waitMsg (timeLeft : Int) : String :=
  "Please wait " ++ toString timeLeft ++ " seconds before generating again."

/-- Message shown when a category selection is missing. -/
def selectionErrorMsg : String :=
  "Please select an option from each category."

/-- Message shown when the re-generate prompt field is empty. -/
def regenPromptErrorMsg : String :=
  "Please enter a prompt in the text field to re-generate."

/-- Outcome of one `performGeneration` call: the request it hands to
`generateImage` (if any), the value of `lastGenerationTime` afterwards,
and the `showStatusError` message it produces before or instead of the
network call (if any). -/
structure PerformResult where
  request : Option GenRequest
  lastGenerationTime : Int
  statusError : Option String
deriving DecidableEq

/-- `performGeneration(prompt, filename)` up to the point where the request
leaves the controller: credential gate, cooldown gate, timestamp update,
then `generateImage`, whose own guard on the two reference images throws
`imagesNotLoadedMsg` (surfaced by the catch block as `Error: ...`). -/
def performGeneration (st : AppState) (prompt : String) (now : Int) : PerformResult :=
  if jsTrim st.apiKeyInput == "" || !st.isApiKeyValid then
    { request := none, lastGenerationTime := st.lastGenerationTime,
      statusError := some keyErrorMsg }
  else if now - st.lastGenerationTime < API_CALL_COOLDOWN_MS then
    { request := none, lastGenerationTime := st.lastGenerationTime,
      statusError := some (waitMsg (ceilDivInt
        (API_CALL_COOLDOWN_MS - (now - st.lastGenerationTime)) 1000)) }
  else
    match st.sourceImageBase64, st.clothingImageBase64 with
    | some src, some cloth =>
      { request := some { sourceImage := src, clothingImage := cloth, prompt := prompt },
        lastGenerationTime := now, statusError := none }
    | _, _ =>
      { request := none, lastGenerationTime := now,
        statusError := some ("Error: " ++ imagesNotLoadedMsg) }

/-- `generateImage(apiKey, prompt, filename)`: the guard on the loaded
reference images, the request it issues, and the scan of the response
parts.  The function writes only DOM elements (`outputImage`,
`downloadButton`), never the controller state variables, so its outcome is
the pair (issued request, extracted data URL or error). -/
def generateImage (st : AppState) (prompt : String)
    (responseParts : List ResponsePart) : Option GenRequest × Except String String :=
  match st.sourceImageBase64, st.clothingImageBase64 with
  | some src, some cloth =>
    (some { sourceImage := src, clothingImage := cloth, prompt := prompt },
     extractImageUrl responseParts)
  | _, _ => (none, Except.error imagesNotLoadedMsg)

/-- The fixed sentence template of `handleGenerateNewClick`. -/
def basePrompt (pose scene mood artStyle : String) : String :=
  "A cartoon character wearing the provided clothing, " ++ pose ++ ", in a " ++
    scene ++ ", in a " ++ mood ++ " mood, in the style of " ++ artStyle ++ "."

/-- The clarifying clause appended for laughing expressions. -/
def laughClause : String :=
  " The character\x27s mouth is closed, with their eyes crinkling to show laughter."

/-- The trigger for the clarifying clause: mood or pose contains the
substring `laugh`, case-insensitively. -/
def laughCond (mood pose : String) : Bool :=
  jsIncludes (jsToLower mood) "laugh" || jsIncludes (jsToLower pose) "laugh"

/-- The prompt composed by `handleGenerateNewClick` from the four selected
strings. -/
def composePrompt (pose scene mood artStyle : String) : String :=
  if laughCond mood pose then basePrompt pose scene mood artStyle ++ laughClause
  else basePrompt pose scene mood artStyle

/-- Character class kept by the `sanitize` regex `[^a-z0-9\s]+` (applied
after lowercasing). -/
def sanitizeKeep (c : Char) : Bool :=
  ('a' ≤ c && c ≤ 'z') || ('0' ≤ c && c ≤ '9') || jsIsSpace c

/-- Replacement `/\s+/g → '-'`: each maximal whitespace run becomes one
dash.  The flag records whether the previous character was whitespace. -/
def collapseWs : Bool → List Char → List Char
  | _, [] => []
  | inRun, c :: rest =>
    if jsIsSpace c then
      if inRun then collapseWs true rest else '-' :: collapseWs true rest
    else c :: collapseWs false rest

/-- The `sanitize` helper of `generateFilename`: lowercase, drop characters
outside `[a-z0-9\s]`, trim, then replace whitespace runs with dashes. -/
def sanitize (s : String) : String :=
  let lowered := s.data.map Char.toLower
  let kept := lowered.filter sanitizeKeep
  let trimmed := ((kept.dropWhile jsIsSpace).reverse.dropWhile jsIsSpace).reverse
  String.mk (collapseWs false trimmed)

/-- JS `split(/\s+/)`: split on maximal whitespace runs; a run at either
end contributes an empty field, and the empty string splits to `[""]`. -/
def jsSplitWs : Bool → List Char → List Char → List String
  | _, cur, [] => [String.mk cur.reverse]
  | inSep, cur, c :: rest =>
    if jsIsSpace c then
      if inSep then jsSplitWs true [] rest
      else String.mk cur.reverse :: jsSplitWs true [] rest
    else jsSplitWs inSep (c :: cur) rest

/-- `fromPrompt.split(/\s+/)` as used by `generateFilename`. -/
def splitOnWs (s : String) : List String :=
  jsSplitWs false [] s.data

/-- `generateFilename(fromPrompt?)`.  `new Date().toISOString().split('T')[0]`
is passed in as `datePart`; the four selections are read from the state.
`if (fromPrompt)` is JS truthiness, so an empty prompt falls through to the
selection-based branch. -/
def generateFilename (datePart : String) (st : AppState)
    (fromPrompt : Option String) : String :=
  let bySelections : String :=
    let parts := [datePart, sanitize (st.selectedPose.getD ""),
      sanitize (st.selectedScene.getD ""), sanitize (st.selectedMood.getD ""),
      sanitize (st.selectedArtStyle.getD "")]
    let kept := parts.filter (fun p => ¬(p = ""))
    if kept.length > 1 then String.intercalate "_" kept ++ ".png"
    else datePart ++ "_character-remix.png"
  match fromPrompt with
  | some p =>
    if p = "" then bySelections
    else
      let promptPart := sanitize (String.intercalate " " ((splitOnWs p).take 5))
      datePart ++ "_" ++ promptPart ++ ".png"
  | none => bySelections

/-- Outcome of a click handler: the lazy options load, a blocking
`showStatusError`, or a `performGeneration` call with the prompt and
filename it was given. -/
inductive HandlerOutcome where
  | lazyLoad : HandlerOutcome
  | blocked (message : String) : HandlerOutcome
  | performed (prompt : String) (filename : String) (result : PerformResult) : HandlerOutcome
deriving DecidableEq

/-- The request that reaches the network under this outcome, if any. -/
def HandlerOutcome.request : HandlerOutcome → Option GenRequest
  | .performed _ _ r => r.request
  | _ => none

/-- The prompt argument handed to `performGeneration`, if the handler got
that far. -/
def HandlerOutcome.promptArg : HandlerOutcome → Option String
  | .performed p _ _ => some p
  | _ => none

/-- `handleGenerateNewClick`: lazy options load, selection-completeness
gate, prompt composition, then `performGeneration`. -/
def handleGenerateNewClick (st : AppState) (now : Int) (datePart : String) :
    HandlerOutcome :=
  if st.allOptions.poses.isNone then HandlerOutcome.lazyLoad
  else if jsFalsyStr st.selectedPose || jsFalsyStr st.selectedScene ||
      jsFalsyStr st.selectedMood || jsFalsyStr st.selectedArtStyle then
    HandlerOutcome.blocked selectionErrorMsg
  else
    let prompt := composePrompt (st.selectedPose.getD "") (st.selectedScene.getD "")
      (st.selectedMood.getD "") (st.selectedArtStyle.getD "")
    HandlerOutcome.performed prompt (generateFilename datePart st none)
      (performGeneration st prompt now)

/-- `handleRegenerateClick`: trims the prompt field, blocks when it is
empty, otherwise calls `performGeneration` with the trimmed text. -/
def handleRegenerateClick (st : AppState) (now : Int) (datePart : String) :
    HandlerOutcome :=
  let prompt := jsTrim st.promptInput
  if prompt = "" then HandlerOutcome.blocked regenPromptErrorMsg
  else HandlerOutcome.performed prompt (generateFilename datePart st (some prompt))
    (performGeneration st prompt now)

/-- `Math.floor(Math.random() * list.length)` parametrised by a draw `r`;
`preselectRandomOptions` only indexes non-empty lists. -/
def pickRandom (l : List String) (r : Nat) : Option String :=
  l.get? (r % l.length)

/-- One assignment of `preselectRandomOptions`: keep the old selection
when the catalog entry is absent or empty (`allOptions.xs?.length` is
falsy), otherwise pick the drawn element. -/
def preselectOne (entry : Option (List String)) (r : Nat)
    (old : Option String) : Option String :=
  match entry with
  | some l => if l.length ≠ 0 then pickRandom l r else old
  | none => old

/-- `preselectRandomOptions`, with the four `Math.random` draws passed in
as indices.  The four JS assignments are independent: each reads only its
own catalog entry and writes only its own selection, so they are modelled
as one parallel update. -/
def preselectRandomOptions (st : AppState) (r1 r2 r3 r4 : Nat) : AppState :=
  { st with
    selectedPose := preselectOne st.allOptions.poses r1 st.selectedPose,
    selectedScene := preselectOne st.allOptions.scenes r2 st.selectedScene,
    selectedMood := preselectOne st.allOptions.moods r3 st.selectedMood,
    selectedArtStyle := preselectOne st.allOptions.artstyle r4 st.selectedArtStyle }

/-- `loadCreativeOptions()`: credential gate, the `generateOptions` call
(whose parsed result or thrown error is `result`), catalog update, random
preselection.  Returns the state afterwards and the `showStatusError`
message, if one was produced. -/
def loadCreativeOptions (st : AppState) (result : Except String OptionsResponse)
    (r1 r2 r3 r4 : Nat) : AppState × Option String :=
  if jsTrim st.apiKeyInput == "" || !st.isApiKeyValid then
    (st, some "Please validate your API key to load creative options.")
  else
    match result with
    | Except.error msg => (st, some ("Error loading options: " ++ msg))
    | Except.ok options =>
      let st1 := { st with allOptions :=
        { poses := some options.poses, scenes := some options.scenes,
          moods := some options.moods, artstyle := some ART_STYLES } }
      (preselectRandomOptions st1 r1 r2 r3 r4, none)

/-- Replace the four category selections of a state (used to express that
an operation is independent of them). -/
def setSelections (st : AppState) (p s m a : Option String) : AppState :=
  { st with
    selectedPose := p
    selectedScene := s
    selectedMood := m
    selectedArtStyle := a }

end Part000

/-- A loaded option catalog used as concrete input by the witnesses and
counterexamples below. -/
def sampleCatalog : OptionCatalog :=
  { poses := some ["waving", "jumping", "sitting"],
    scenes := some ["park", "beach", "library"],
    moods := some ["Happy", "Joyful", "Laughing"],
    artstyle := some ART_STYLES }

/-- A fully initialised `part_000` controller state (images loaded, key
validated, options loaded, complete selections) used as concrete input by
the witnesses and counterexamples below. -/
def Part000.sampleState : Part000.AppState :=
  { selectedPose := some "waving", selectedScene := some "park",
    selectedMood := some "Happy", selectedArtStyle := some "Cartoon",
    sourceImageBase64 := some "SRC", clothingImageBase64 := some "CLOTH",
    apiKeyInput := "test-key", isApiKeyValid := true,
    allOptions := sampleCatalog, lastGenerationTime := 0,
    promptInput := "hello there" }

namespace IndexTsx

/-- The mutable controller state of `src/index.tsx` (no API-key field or
validity flag; a loaded `systemPromptText` instead). -/
structure IState where
  selectedPose : Option String
  selectedScene : Option String
  selectedMood : Option String
  selectedArtStyle : Option String
  sourceImageBase64 : Option String
  clothingImageBase64 : Option String
  systemPromptText : String
  allOptions : OptionCatalog
  lastGenerationTime : Int
  promptInput : String
deriving DecidableEq

/-- `performGeneration(fullPrompt, userPrompt)` of `src/index.tsx`: the
cooldown gate is the only synchronous gate; past it the timestamp is set
and `generateImage(fullPrompt)` runs, whose guard on the reference images
throws `imagesNotLoadedMsg` (surfaced by `handleApiError` as `Error: ...`). -/
def performGeneration (st : IState) (fullPrompt : String) (now : Int) :
    Part000.PerformResult :=
  if now - st.lastGenerationTime < API_CALL_COOLDOWN_MS then
    { request := none, lastGenerationTime := st.lastGenerationTime,
      statusError := some (Part000.waitMsg (ceilDivInt
        (API_CALL_COOLDOWN_MS - (now - st.lastGenerationTime)) 1000)) }
  else
    match st.sourceImageBase64, st.clothingImageBase64 with
    | some src, some cloth =>
      { request := some { sourceImage := src, clothingImage := cloth, prompt := fullPrompt },
        lastGenerationTime := now, statusError := none }
    | _, _ =>
      { request := none, lastGenerationTime := now,
        statusError := some ("Error: " ++ imagesNotLoadedMsg) }

/-- The `variantsPrompt` template of `handleGenerateNewClick` in
`src/index.tsx` (no laughing-expression clause in this variant). -/
def variantsPrompt (pose scene mood artStyle : String) : String :=
  "Redraw the character wearing the provided clothing, " ++ pose ++ ", in a " ++
    scene ++ ", in a " ++ mood ++ " mood, in the style of " ++ artStyle ++ "."

/-- The separator placed between the system prompt and the variant or
user prompt. -/
def promptSep : String := "\n\n---\n\n"

/-- `finalPrompt` / `fullPrompt`: the loaded system prompt joined to the
dynamic prompt by the separator. -/
def finalPrompt (systemPromptText dynamicPrompt : String) : String :=
  systemPromptText ++ promptSep ++ dynamicPrompt

/-- `handleGenerateNewClick` of `src/index.tsx`: lazy options load,
selection gate, then `performGeneration(finalPrompt, variantsPrompt)`.
This variant computes no filename at the handler (the download name is
produced inside `generateImage`), so the filename slot of the shared
outcome type is left empty. -/
def handleGenerateNewClick (st : IState) (now : Int) : Part000.HandlerOutcome :=
  if st.allOptions.poses.isNone then Part000.HandlerOutcome.lazyLoad
  else if jsFalsyStr st.selectedPose || jsFalsyStr st.selectedScene ||
      jsFalsyStr st.selectedMood || jsFalsyStr st.selectedArtStyle then
    Part000.HandlerOutcome.blocked Part000.selectionErrorMsg
  else
    let variants := variantsPrompt (st.selectedPose.getD "") (st.selectedScene.getD "")
      (st.selectedMood.getD "") (st.selectedArtStyle.getD "")
    let full := finalPrompt st.systemPromptText variants
    Part000.HandlerOutcome.performed full "" (performGeneration st full now)

/-- `handleRegenerateClick` of `src/index.tsx`: trims the prompt field,
blocks when empty, otherwise re-joins the system prompt and calls
`performGeneration(fullPrompt, userPrompt)`. -/
def handleRegenerateClick (st : IState) (now : Int) : Part000.HandlerOutcome :=
  let userPrompt := jsTrim st.promptInput
  if userPrompt = "" then Part000.HandlerOutcome.blocked Part000.regenPromptErrorMsg
  else
    let full := finalPrompt st.systemPromptText userPrompt
    Part000.HandlerOutcome.performed full "" (performGeneration st full now)

/-- All four category selections are truthy (non-null, non-empty). -/
def selectionsComplete (st : IState) : Bool :=
  !(jsFalsyStr st.selectedPose || jsFalsyStr st.selectedScene ||
    jsFalsyStr st.selectedMood || jsFalsyStr st.selectedArtStyle)

/-- Message of `handleApiError` for an invalid or missing key. -/
def invalidKeyMsg : String :=
  "The API key is invalid or not found. Please use the \"Select API Key\" button in the banner to provide a valid key."

/-- Message of `handleApiError` for quota exhaustion. -/
def quotaMsg : String :=
  "You\x27ve exceeded your usage quota. This can happen on the free tier. <br> Please <a href=\"https://ai.google.dev/gemini-api/docs/billing\" target=\"_blank\" class=\"text-blue-400 hover:underline font-semibold\">enable billing</a> on your Google Cloud project."

/-- `handleApiError`: classify the thrown message by substring and map it
to the user-facing message passed to `showStatusError`. -/
def handleApiErrorMsg (msg : String) : String :=
  if jsIncludes msg "API_KEY_INVALID" || jsIncludes msg "permission denied" ||
      jsIncludes msg "Requested entity was not found" then invalidKeyMsg
  else if jsIncludes msg "RESOURCE_EXHAUSTED" || jsIncludes msg "429" then quotaMsg
  else "Error: " ++ msg

/-- `preselectRandomOptions` of `src/index.tsx` (same code as the
`part_000` variant, over the state of this variant). -/
def preselectRandomOptions (st : IState) (r1 r2 r3 r4 : Nat) : IState :=
  { st with
    selectedPose := Part000.preselectOne st.allOptions.poses r1 st.selectedPose,
    selectedScene := Part000.preselectOne st.allOptions.scenes r2 st.selectedScene,
    selectedMood := Part000.preselectOne st.allOptions.moods r3 st.selectedMood,
    selectedArtStyle := Part000.preselectOne st.allOptions.artstyle r4 st.selectedArtStyle }

/-- `loadCreativeOptions` of `src/index.tsx`: no credential gate; on a
thrown error the catalog is untouched and `handleApiError` shows a
message; on success the catalog is filled and selections preselected. -/
def loadCreativeOptions (st : IState) (result : Except String OptionsResponse)
    (r1 r2 r3 r4 : Nat) : IState × Option String :=
  match result with
  | Except.error msg => (st, some (handleApiErrorMsg msg))
  | Except.ok options =>
    let st1 := { st with allOptions :=
      { poses := some options.poses, scenes := some options.scenes,
        moods := some options.moods, artstyle := some ART_STYLES } }
    (preselectRandomOptions st1 r1 r2 r3 r4, none)

end IndexTsx

/-- A fully initialised `index.tsx` controller state used as concrete
input by the witnesses and counterexamples below. -/
def IndexTsx.sampleIState : IndexTsx.IState :=
  { selectedPose := some "waving", selectedScene := some "park",
    selectedMood := some "Happy", selectedArtStyle := some "Cartoon",
    sourceImageBase64 := some "SRC", clothingImageBase64 := some "CLOTH",
    systemPromptText := "SYSTEM", allOptions := sampleCatalog,
    lastGenerationTime := 0, promptInput := "hello there" }

/-- A parsed options response that obeys the 3-per-category instruction. -/
def sampleResp3 : OptionsResponse :=
  ⟨["p1", "p2", "p3"], ["s1", "s2", "s3"], ["m1", "m2", "m3"]⟩

/-- A parsed options response with four poses: valid JSON for the schema,
which carries no length constraint. -/
def sampleResp4 : OptionsResponse :=
  ⟨["a", "b", "c", "d"], ["s1", "s2", "s3"], ["m1", "m2", "m3"]⟩

/-! Helper lemmas shared by the claim theorems. -/

/-- The response scan of `generateImage` returns the data URL of the first
inline image payload, or the fixed error when there is none. -/
theorem extractImageUrl_eq_firstInlineData (parts : List ResponsePart) :
    extractImageUrl parts =
      (match firstInlineData parts with
       | some d => Except.ok (dataUrlHead ++ d)
       | none => Except.error noImageMsg) := by
  induction parts with
  | nil => rfl
  | cons p rest ih =>
    cases hp : p.inlineData <;> simp [extractImageUrl, firstInlineData, hp, ih]

/-- There is no inline image payload exactly when no part carries one. -/
theorem firstInlineData_eq_none_iff (parts : List ResponsePart) :
    firstInlineData parts = none ↔ ∀ p ∈ parts, p.inlineData = none := by
  induction parts with
  | nil => simp [firstInlineData]
  | cons p rest ih =>
    cases hp : p.inlineData <;> simp [firstInlineData, hp, ih]

/-- A data URL built by `generateImage` is never the empty string. -/
theorem dataUrl_ne_empty (d : String) : dataUrlHead ++ d ≠ "" := by
  intro h
  have hl := congrArg String.length h
  rw [String.length_append] at hl
  have hd : dataUrlHead.length = 22 := by decide
  simp [hd] at hl

/-- The boolean credential condition tested by `performGeneration` and
`loadCreativeOptions` is the negation of `credOk`. -/
theorem credCond_eq_not_credOk (st : Part000.AppState) :
    (jsTrim st.apiKeyInput == "" || !st.isApiKeyValid) = !(Part000.credOk st) := by
  unfold Part000.credOk
  cases jsTrim st.apiKeyInput == "" <;> cases st.isApiKeyValid <;> rfl

/-- `preselectRandomOptions` never touches the option catalog. -/
theorem preselect_allOptions (st : Part000.AppState) (r1 r2 r3 r4 : Nat) :
    (Part000.preselectRandomOptions st r1 r2 r3 r4).allOptions = st.allOptions := rfl

/-- C10: whenever either reference image is still unloaded, `generateImage`
throws the explicit error `Source images have not been loaded.` and issues
no network request (the function writes no controller state at all, so the
state is untouched). -/
theorem c10_generateImage_guard (st : Part000.AppState) (prompt : String)
    (parts : List ResponsePart)
    (h : st.sourceImageBase64 = none ∨ st.clothingImageBase64 = none) :
    Part000.generateImage st prompt parts =
      (none, Except.error imagesNotLoadedMsg) := by
  unfold Part000.generateImage
  rcases h with h | h
  · rw [h]
  · rw [h]
    cases st.sourceImageBase64 <;> rfl

/-- Witness for C10 at a concrete state with a missing clothing image. -/
theorem c10_witness :
    ({ Part000.sampleState with clothingImageBase64 := none } : Part000.AppState).clothingImageBase64 = none
    ∧ Part000.generateImage { Part000.sampleState with clothingImageBase64 := none } "p" [] =
        (none, Except.error imagesNotLoadedMsg) :=
  ⟨rfl, c10_generateImage_guard _ "p" [] (Or.inr rfl)⟩

/-- C6: given loaded reference images, `generateImage` returns the payload
of the first response part carrying inline image data as the data URL
`data:image/png;base64,` ++ payload — so a successful result is non-empty
and carries that head — and it fails with the explicit error exactly when
no part carries inline image data. -/
theorem c6_generateImage_extract (st : Part000.AppState) (prompt : String)
    (parts : List ResponsePart) (h : Part000.imagesLoaded st = true) :
    ((Part000.generateImage st prompt parts).2 =
      (match firstInlineData parts with
       | some d => Except.ok (dataUrlHead ++ d)
       | none => Except.error noImageMsg))
    ∧ (∀ url, (Part000.generateImage st prompt parts).2 = Except.ok url →
        (∃ payload, url = dataUrlHead ++ payload) ∧ url ≠ "")
    ∧ ((Part000.generateImage st prompt parts).2 = Except.error noImageMsg ↔
        ∀ p ∈ parts, p.inlineData = none) := by
  unfold Part000.imagesLoaded at h
  rw [Bool.and_eq_true] at h
  obtain ⟨src, hs⟩ := Option.isSome_iff_exists.mp h.1
  obtain ⟨cloth, hc⟩ := Option.isSome_iff_exists.mp h.2
  have hgen : (Part000.generateImage st prompt parts).2 = extractImageUrl parts := by
    unfold Part000.generateImage
    rw [hs, hc]
  refine ⟨?_, ?_, ?_⟩
  · rw [hgen, extractImageUrl_eq_firstInlineData]
  · intro url hurl
    rw [hgen, extractImageUrl_eq_firstInlineData] at hurl
    cases hfi : firstInlineData parts with
    | none => rw [hfi] at hurl; exact absurd hurl (by simp)
    | some d =>
      rw [hfi] at hurl
      simp only [Except.ok.injEq] at hurl
      exact ⟨⟨d, hurl.symm⟩, hurl ▸ dataUrl_ne_empty d⟩
  · rw [hgen, extractImageUrl_eq_firstInlineData, ← firstInlineData_eq_none_iff]
    cases hfi : firstInlineData parts <;> simp

/-- Witness for C6 at a concrete response whose second part carries the
image payload. -/
theorem c6_witness :
    Part000.imagesLoaded Part000.sampleState = true
    ∧ (Part000.generateImage Part000.sampleState "p"
        [{ inlineData := none, text := some "note" },
         { inlineData := some "IMGDATA", text := none }]).2 =
        Except.ok (dataUrlHead ++ "IMGDATA") :=
  ⟨by decide,
   (c6_generateImage_extract Part000.sampleState "p"
     [{ inlineData := none, text := some "note" },
      { inlineData := some "IMGDATA", text := none }] (by decide)).1⟩

/-- C9: `generateFilename` is deterministic — it reads nothing besides the
date, the four category selections and the optional prompt argument, so
two states agreeing on the four selections yield the identical filename
for the same date and prompt argument. -/
theorem c9_generateFilename_deterministic (datePart : String)
    (st st2 : Part000.AppState) (fromPrompt : Option String)
    (h1 : st.selectedPose = st2.selectedPose)
    (h2 : st.selectedScene = st2.selectedScene)
    (h3 : st.selectedMood = st2.selectedMood)
    (h4 : st.selectedArtStyle = st2.selectedArtStyle) :
    Part000.generateFilename datePart st fromPrompt =
      Part000.generateFilename datePart st2 fromPrompt := by
  unfold Part000.generateFilename
  rw [h1, h2, h3, h4]

/-- Witness for C9: two states differing in everything but the selections
produce the same filename. -/
theorem c9_witness :
    Part000.sampleState.selectedPose =
      ({ Part000.sampleState with promptInput := "other", lastGenerationTime := 99 } : Part000.AppState).selectedPose
    ∧ Part000.generateFilename "2025-05-01" Part000.sampleState none =
        Part000.generateFilename "2025-05-01"
          { Part000.sampleState with promptInput := "other", lastGenerationTime := 99 } none :=
  ⟨rfl, c9_generateFilename_deterministic "2025-05-01" _ _ none rfl rfl rfl rfl⟩

/-- C1 (amended): `performGeneration` issues a request exactly when the
credential state is valid, at least the 10-second cooldown has elapsed
since the rate-limiter timestamp, and both reference images are loaded;
selection completeness is not among its gates (it is enforced only on the
generate-new path, and the regenerate path bypasses it — see the
counterexample). -/
theorem c1_performGeneration_gates (st : Part000.AppState) (prompt : String)
    (now : Int) :
    (Part000.performGeneration st prompt now).request.isSome = true ↔
      (Part000.credOk st = true
       ∧ API_CALL_COOLDOWN_MS ≤ now - st.lastGenerationTime
       ∧ Part000.imagesLoaded st = true) := by
  unfold Part000.performGeneration Part000.credOk Part000.imagesLoaded
  cases hk : jsTrim st.apiKeyInput == "" <;> cases hv : st.isApiKeyValid <;>
    simp [hk, hv]
  by_cases hcool : now - st.lastGenerationTime < API_CALL_COOLDOWN_MS
  · simp only [hcool, if_true, Option.isSome_none]
    constructor
    · intro h
      exact absurd h (by simp)
    · intro h
      omega
  · simp only [hcool, if_false]
    have hle : API_CALL_COOLDOWN_MS ≤ now - st.lastGenerationTime := by omega
    cases hs : st.sourceImageBase64 <;> cases hc : st.clothingImageBase64 <;>
      simp [hs, hc, hle]

/-- Counterexample for C1: at a state with a null pose (so the selection
state is incomplete) but a valid credential and an elapsed cooldown, the
regenerate path still reaches `performGeneration`, which issues the
request. -/
theorem c1_counterexample :
    (Part000.performGeneration { Part000.sampleState with selectedPose := none }
        "hello there" 20000).request.isSome = true
    ∧ Part000.selectionsComplete { Part000.sampleState with selectedPose := none } = false
    ∧ Part000.credOk { Part000.sampleState with selectedPose := none } = true
    ∧ (Part000.handleRegenerateClick { Part000.sampleState with selectedPose := none }
        20000 "2025-05-01").request.isSome = true := by decide

/-- Witness for C1 at a concrete state satisfying all three gates. -/
theorem c1_witness :
    (Part000.performGeneration Part000.sampleState "hello" 20000).request.isSome = true :=
  (c1_performGeneration_gates Part000.sampleState "hello" 20000).mpr
    ⟨by decide, by decide, by decide⟩

/-- C2 (amended): in the `part_000` variant, a call to `performGeneration`
that passes the credential gate while the elapsed time is under the
10-second cooldown is rejected immediately with the remaining-seconds
message (ceiling of (cooldown − elapsed) in seconds), leaves the
timestamp unchanged and issues no request, and a call that proceeds past
the cooldown gate sets the timestamp to the current time; in the
`index.tsx` variant the same holds for every call, there being no
credential gate.  A call failing the `part_000` credential gate is
rejected with the key message instead (see the counterexample). -/
theorem c2_cooldown_gate (st : Part000.AppState) (ist : IndexTsx.IState)
    (prompt full : String) (now inow : Int) :
    (Part000.credOk st = true →
      (now - st.lastGenerationTime < API_CALL_COOLDOWN_MS →
        Part000.performGeneration st prompt now =
          { request := none, lastGenerationTime := st.lastGenerationTime,
            statusError := some (Part000.waitMsg (ceilDivInt
              (API_CALL_COOLDOWN_MS - (now - st.lastGenerationTime)) 1000)) })
      ∧ (API_CALL_COOLDOWN_MS ≤ now - st.lastGenerationTime →
          (Part000.performGeneration st prompt now).lastGenerationTime = now))
    ∧ ((inow - ist.lastGenerationTime < API_CALL_COOLDOWN_MS →
        IndexTsx.performGeneration ist full inow =
          { request := none, lastGenerationTime := ist.lastGenerationTime,
            statusError := some (Part000.waitMsg (ceilDivInt
              (API_CALL_COOLDOWN_MS - (inow - ist.lastGenerationTime)) 1000)) })
      ∧ (API_CALL_COOLDOWN_MS ≤ inow - ist.lastGenerationTime →
          (IndexTsx.performGeneration ist full inow).lastGenerationTime = inow)) := by
  refine ⟨fun hcred => ⟨fun hcool => ?_, fun hpast => ?_⟩,
    fun hcool => ?_, fun hpast => ?_⟩
  · unfold Part000.performGeneration
    rw [credCond_eq_not_credOk, hcred]
    simp [hcool]
  · unfold Part000.performGeneration
    rw [credCond_eq_not_credOk, hcred]
    have hcool : ¬(now - st.lastGenerationTime < API_CALL_COOLDOWN_MS) := by omega
    simp only [hcool, if_false, Bool.not_true, Bool.false_eq_true, if_neg,
      Bool.cond_decide]
    cases st.sourceImageBase64 <;> cases st.clothingImageBase64 <;> rfl
  · unfold IndexTsx.performGeneration
    simp [hcool]
  · unfold IndexTsx.performGeneration
    have hcool : ¬(inow - ist.lastGenerationTime < API_CALL_COOLDOWN_MS) := by omega
    simp only [hcool, if_false]
    cases ist.sourceImageBase64 <;> cases ist.clothingImageBase64 <;> rfl

/-- Counterexample for C2: a call made under the cooldown while the key is
invalid is rejected with the key message, not with the remaining-seconds
message the claim requires for every under-cooldown call. -/
theorem c2_counterexample :
    (6000 : Int) - ({ Part000.sampleState with
        isApiKeyValid := false
        lastGenerationTime := 5000 } : Part000.AppState).lastGenerationTime
      < API_CALL_COOLDOWN_MS
    ∧ (Part000.performGeneration { Part000.sampleState with
        isApiKeyValid := false
        lastGenerationTime := 5000 } "p" 6000).statusError = some Part000.keyErrorMsg
    ∧ Part000.keyErrorMsg ≠ Part000.waitMsg (ceilDivInt
        (API_CALL_COOLDOWN_MS - ((6000 : Int) - 5000)) 1000) := by decide

/-- Witness for C2 at a concrete under-cooldown call with a valid key:
the rejection carries the 9-seconds-remaining message. -/
theorem c2_witness :
    Part000.performGeneration { Part000.sampleState with lastGenerationTime := 5000 }
        "p" 6000 =
      { request := none, lastGenerationTime := 5000,
        statusError := some (Part000.waitMsg 9) } := by
  have h := (c2_cooldown_gate { Part000.sampleState with lastGenerationTime := 5000 }
    IndexTsx.sampleIState "p" "f" 6000 20000).1 (by decide)
  exact h.1 (by decide)

/-- C3 (amended): on the generate-new path of both variants, once the
options are loaded, a missing (null or empty) category selection blocks
the attempt with the selection error before any call to
`performGeneration`; the regenerate path performs no selection check and
can reach the image-generation call with an incomplete selection (see the
counterexample). -/
theorem c3_selection_gate (st : Part000.AppState) (ist : IndexTsx.IState)
    (now inow : Int) (datePart : String)
    (hopt : st.allOptions.poses.isNone = false)
    (hsel : Part000.selectionsComplete st = false)
    (hiopt : ist.allOptions.poses.isNone = false)
    (hisel : IndexTsx.selectionsComplete ist = false) :
    Part000.handleGenerateNewClick st now datePart =
      Part000.HandlerOutcome.blocked Part000.selectionErrorMsg
    ∧ IndexTsx.handleGenerateNewClick ist inow =
      Part000.HandlerOutcome.blocked Part000.selectionErrorMsg := by
  unfold Part000.selectionsComplete at hsel
  unfold IndexTsx.selectionsComplete at hisel
  rw [Bool.not_eq_false'] at hsel hisel
  constructor
  · unfold Part000.handleGenerateNewClick
    simp [hopt, hsel]
  · unfold IndexTsx.handleGenerateNewClick
    simp [hiopt, hisel]

/-- Counterexample for C3: with a null mood, the regenerate path is not
blocked and its `performGeneration` call issues the request. -/
theorem c3_counterexample :
    ({ Part000.sampleState with selectedMood := none } : Part000.AppState).selectedMood = none
    ∧ (Part000.handleRegenerateClick { Part000.sampleState with selectedMood := none }
        20000 "2025-05-01").request.isSome = true := by decide

/-- Witness for C3 at concrete states with a missing scene selection. -/
theorem c3_witness :
    Part000.handleGenerateNewClick { Part000.sampleState with selectedScene := none } 0 "2025-05-01" =
      Part000.HandlerOutcome.blocked Part000.selectionErrorMsg
    ∧ IndexTsx.handleGenerateNewClick { IndexTsx.sampleIState with selectedScene := none } 0 =
      Part000.HandlerOutcome.blocked Part000.selectionErrorMsg :=
  c3_selection_gate { Part000.sampleState with selectedScene := none }
    { IndexTsx.sampleIState with selectedScene := none } 0 0 "2025-05-01"
    (by decide) (by decide) (by decide) (by decide)

/-- C4 (amended): in the `part_000` variant the composed prompt is the
fixed template with the clarifying clause appended exactly once when the
mood or pose contains `laugh` case-insensitively, and without it (in
particular, not equal to the clause-carrying form) otherwise; the
`index.tsx` variant composes its template without ever appending the
clause (see the counterexample). -/
theorem c4_laugh_clause (pose scene mood artStyle : String) :
    (Part000.laughCond mood pose = true →
      Part000.composePrompt pose scene mood artStyle =
        Part000.basePrompt pose scene mood artStyle ++ Part000.laughClause)
    ∧ (Part000.laughCond mood pose = false →
      Part000.composePrompt pose scene mood artStyle =
        Part000.basePrompt pose scene mood artStyle
      ∧ Part000.composePrompt pose scene mood artStyle ≠
        Part000.basePrompt pose scene mood artStyle ++ Part000.laughClause) := by
  refine ⟨fun h => by simp [Part000.composePrompt, h],
    fun h => ⟨by simp [Part000.composePrompt, h], fun heq => ?_⟩⟩
  simp only [Part000.composePrompt, h, Bool.false_eq_true, if_false] at heq
  have hl := congrArg String.length heq
  rw [String.length_append] at hl
  have hc : 0 < Part000.laughClause.length := by decide
  omega

/-- Counterexample for C4: in the `index.tsx` variant, a laughing mood
yields a composed prompt that does not contain (hence does not append)
the clarifying clause. -/
theorem c4_counterexample :
    Part000.laughCond "Laughing" "standing tall" = true
    ∧ jsIncludes (IndexTsx.variantsPrompt "standing tall" "sunny park" "Laughing" "Cartoon")
        Part000.laughClause = false
    ∧ jsIncludes (IndexTsx.finalPrompt ""
        (IndexTsx.variantsPrompt "standing tall" "sunny park" "Laughing" "Cartoon"))
        Part000.laughClause = false := by decide

/-- Witness for C4 at a concrete laughing mood in the `part_000` variant. -/
theorem c4_witness :
    Part000.laughCond "Laughing" "waving" = true
    ∧ Part000.composePrompt "waving" "park" "Laughing" "Cartoon" =
        Part000.basePrompt "waving" "park" "Laughing" "Cartoon" ++ Part000.laughClause :=
  ⟨by decide, (c4_laugh_clause "waving" "park" "Laughing" "Cartoon").1 (by decide)⟩

/-- C5 (amended): the regenerate path sends the user-edited prompt after
trimming surrounding whitespace — in the `part_000` variant exactly the
trimmed text, in the `index.tsx` variant the loaded system prompt joined
to the trimmed text by the fixed separator — and in neither variant does
it compose a templated sentence from the category selections (the
`part_000` outcome is invariant under any change of the four
selections). -/
theorem c5_regenerate_verbatim (st : Part000.AppState) (ist : IndexTsx.IState)
    (now inow : Int) (datePart : String) (p s m a : Option String) :
    (jsTrim st.promptInput ≠ "" →
      (Part000.handleRegenerateClick st now datePart).promptArg =
        some (jsTrim st.promptInput))
    ∧ Part000.handleRegenerateClick (Part000.setSelections st p s m a) now datePart =
        Part000.handleRegenerateClick st now datePart
    ∧ (jsTrim ist.promptInput ≠ "" →
      (IndexTsx.handleRegenerateClick ist inow).promptArg =
        some (IndexTsx.finalPrompt ist.systemPromptText (jsTrim ist.promptInput))) := by
  refine ⟨fun h => ?_, ?_, fun h => ?_⟩
  · simp [Part000.handleRegenerateClick, h, Part000.HandlerOutcome.promptArg]
  · simp only [Part000.handleRegenerateClick, Part000.setSelections,
      Part000.generateFilename, Part000.performGeneration]
    by_cases h : jsTrim st.promptInput = "" <;> simp [h]
  · simp [IndexTsx.handleRegenerateClick, h, Part000.HandlerOutcome.promptArg]

/-- Counterexample for C5: a prompt with surrounding whitespace is sent
trimmed, not verbatim, and the `index.tsx` variant prefixes the system
prompt, so the sent prompt differs from the entered text in both
variants. -/
theorem c5_counterexample :
    (Part000.handleRegenerateClick { Part000.sampleState with promptInput := " hello there " }
        20000 "2025-05-01").promptArg = some "hello there"
    ∧ some " hello there " ≠ some "hello there"
    ∧ (IndexTsx.handleRegenerateClick IndexTsx.sampleIState 20000).promptArg ≠
        some IndexTsx.sampleIState.promptInput := by decide

/-- Witness for C5 at concrete states with a non-empty prompt field. -/
theorem c5_witness :
    (Part000.handleRegenerateClick Part000.sampleState 20000 "2025-05-01").promptArg =
      some (jsTrim Part000.sampleState.promptInput)
    ∧ (IndexTsx.handleRegenerateClick IndexTsx.sampleIState 20000).promptArg =
      some (IndexTsx.finalPrompt IndexTsx.sampleIState.systemPromptText
        (jsTrim IndexTsx.sampleIState.promptInput)) :=
  ⟨(c5_regenerate_verbatim Part000.sampleState IndexTsx.sampleIState 20000 20000
      "2025-05-01" none none none none).1 (by decide),
   (c5_regenerate_verbatim Part000.sampleState IndexTsx.sampleIState 20000 20000
      "2025-05-01" none none none none).2.2 (by decide)⟩

/-- C7 (amended): after a successful option load the catalog holds exactly
the three lists of the parsed response plus the fixed three-element
art-style list; the pose, scene and mood entries therefore have exactly 3
elements whenever the response obeys the instruction, but no length is
enforced by the code (see the counterexample with a four-element
response). -/
theorem c7_catalog_after_success (st : Part000.AppState) (resp : OptionsResponse)
    (r1 r2 r3 r4 : Nat) (h : Part000.credOk st = true) :
    ((Part000.loadCreativeOptions st (Except.ok resp) r1 r2 r3 r4).1.allOptions =
      { poses := some resp.poses, scenes := some resp.scenes,
        moods := some resp.moods, artstyle := some ART_STYLES })
    ∧ ((Part000.loadCreativeOptions st (Except.ok resp) r1 r2 r3 r4).2 = none)
    ∧ ART_STYLES.length = 3
    ∧ (resp.poses.length = 3 →
        Option.map List.length
          ((Part000.loadCreativeOptions st (Except.ok resp) r1 r2 r3 r4).1.allOptions.poses) = some 3)
    ∧ (resp.scenes.length = 3 →
        Option.map List.length
          ((Part000.loadCreativeOptions st (Except.ok resp) r1 r2 r3 r4).1.allOptions.scenes) = some 3)
    ∧ (resp.moods.length = 3 →
        Option.map List.length
          ((Part000.loadCreativeOptions st (Except.ok resp) r1 r2 r3 r4).1.allOptions.moods) = some 3) := by
  have hcat : (Part000.loadCreativeOptions st (Except.ok resp) r1 r2 r3 r4).1.allOptions =
      { poses := some resp.poses, scenes := some resp.scenes,
        moods := some resp.moods, artstyle := some ART_STYLES } := by
    unfold Part000.loadCreativeOptions
    rw [credCond_eq_not_credOk, h]
    simp [preselect_allOptions]
  have hmsg : (Part000.loadCreativeOptions st (Except.ok resp) r1 r2 r3 r4).2 = none := by
    unfold Part000.loadCreativeOptions
    rw [credCond_eq_not_credOk, h]
    simp
  refine ⟨hcat, hmsg, by decide, fun hp => ?_, fun hs => ?_, fun hm => ?_⟩
  · rw [hcat]; simp [hp]
  · rw [hcat]; simp [hs]
  · rw [hcat]; simp [hm]

/-- Counterexample for C7: a successful load whose response carries four
poses leaves the catalog with a four-element pose list, not exactly 3. -/
theorem c7_counterexample :
    ((Part000.loadCreativeOptions Part000.sampleState (Except.ok sampleResp4) 0 0 0 0).2 = none)
    ∧ ((Part000.loadCreativeOptions Part000.sampleState (Except.ok sampleResp4) 0 0 0 0).1.allOptions.poses =
        some ["a", "b", "c", "d"])
    ∧ sampleResp4.poses.length ≠ 3 := by decide

/-- Witness for C7 at a concrete compliant response. -/
theorem c7_witness :
    Part000.credOk Part000.sampleState = true
    ∧ ((Part000.loadCreativeOptions Part000.sampleState (Except.ok sampleResp3) 1 2 0 1).1.allOptions =
        { poses := some sampleResp3.poses, scenes := some sampleResp3.scenes,
          moods := some sampleResp3.moods, artstyle := some ART_STYLES }) :=
  ⟨by decide,
   (c7_catalog_after_success Part000.sampleState sampleResp3 1 2 0 1 (by decide)).1⟩

/-- C8: a failing option-load attempt (thrown API error or JSON parse
error inside `generateOptions`) surfaces an error message and returns the
state — and so the catalog — entirely unchanged in both variants; no
partial population and no automatic retry is possible, the single
`generateOptions` result being consumed exactly once per invocation. -/
theorem c8_failed_load_unchanged (st : Part000.AppState) (ist : IndexTsx.IState)
    (msg : String) (r1 r2 r3 r4 : Nat) :
    ((Part000.loadCreativeOptions st (Except.error msg) r1 r2 r3 r4).1 = st)
    ∧ ((Part000.loadCreativeOptions st (Except.error msg) r1 r2 r3 r4).2.isSome = true)
    ∧ (Part000.credOk st = true →
        (Part000.loadCreativeOptions st (Except.error msg) r1 r2 r3 r4).2 =
          some ("Error loading options: " ++ msg))
    ∧ ((IndexTsx.loadCreativeOptions ist (Except.error msg) r1 r2 r3 r4).1 = ist)
    ∧ ((IndexTsx.loadCreativeOptions ist (Except.error msg) r1 r2 r3 r4).2 =
        some (IndexTsx.handleApiErrorMsg msg)) := by
  refine ⟨?_, ?_, fun h => ?_, rfl, rfl⟩
  · unfold Part000.loadCreativeOptions
    cases hcond : (jsTrim st.apiKeyInput == "" || !st.isApiKeyValid) <;> simp [hcond]
  · unfold Part000.loadCreativeOptions
    cases hcond : (jsTrim st.apiKeyInput == "" || !st.isApiKeyValid) <;> simp [hcond]
  · unfold Part000.loadCreativeOptions
    rw [credCond_eq_not_credOk, h]
    simp

/-- Witness for C8 at a concrete failing load. -/
theorem c8_witness :
    ((Part000.loadCreativeOptions Part000.sampleState (Except.error "boom") 0 0 0 0).1 =
      Part000.sampleState)
    ∧ ((Part000.loadCreativeOptions Part000.sampleState (Except.error "boom") 0 0 0 0).2 =
      some ("Error loading options: " ++ "boom")) :=
  ⟨(c8_failed_load_unchanged Part000.sampleState IndexTsx.sampleIState "boom" 0 0 0 0).1,
   (c8_failed_load_unchanged Part000.sampleState IndexTsx.sampleIState "boom" 0 0 0 0).2.2.1
     (by decide)⟩

end NanoRemix
